import Mathlib

/-!
Verification of the ray/cone intersection kernel of `yocto_geometry.h`.

The source is single-precision C++; we embed it shallowly over the real
numbers `ℝ`, with division being Lean's total division (the source never
divides by zero on the paths the theorems exercise, except where noted).
Out-parameters (`vec2f& uv`, `float& dist`) are modelled by threading the
current values through each function and returning the updated ones; every
early `return false` of the source returns the incoming values unchanged,
exactly as the C++ leaves the caller's variables untouched.

The vector/scalar math helpers (`dot`, `cross`, `normalize`, `min`, `max`,
`abs`, `clamp`, ...) live in `yocto_math.h`, which is not among the given
sources; they are modelled from the spec's description of the math library
("dot/cross/normalize/clamp/min/max over 2- and 3-component float vectors",
componentwise where applicable).  Likewise the sample-count constant
`N_CONE_POINTS` is not among the given sources; following the spec
("sample count `N` is a fixed process-wide constant") it is threaded as an
explicit parameter `NPts` of the cone-sampler definitions.
-/

open Classical

noncomputable section

namespace yocto

/-- 2-component float vector (modelled over `ℝ`). -/
structure vec2f where
  x : ℝ
  y : ℝ

/-- 3-component float vector (modelled over `ℝ`). -/
structure vec3f where
  x : ℝ
  y : ℝ
  z : ℝ

instance : Add vec3f := ⟨fun a b => ⟨a.x + b.x, a.y + b.y, a.z + b.z⟩⟩
instance : Sub vec3f := ⟨fun a b => ⟨a.x - b.x, a.y - b.y, a.z - b.z⟩⟩
instance : Neg vec3f := ⟨fun a => ⟨-a.x, -a.y, -a.z⟩⟩
instance : Mul vec3f := ⟨fun a b => ⟨a.x * b.x, a.y * b.y, a.z * b.z⟩⟩

/-- Modelled from the spec: vector-times-scalar of the math library. -/
instance : HMul vec3f ℝ vec3f := ⟨fun a s => ⟨a.x * s, a.y * s, a.z * s⟩⟩

/-- Modelled from the spec: scalar-times-vector of the math library. -/
instance : HMul ℝ vec3f vec3f := ⟨fun s a => ⟨s * a.x, s * a.y, s * a.z⟩⟩

/-- Modelled from the spec: vector-plus-scalar (componentwise) of the math
library, used in `(p + radius)`. -/
instance : HAdd vec3f ℝ vec3f := ⟨fun a s => ⟨a.x + s, a.y + s, a.z + s⟩⟩

/-- Modelled from the spec: vector-divided-by-scalar of the math library. -/
instance : HDiv vec3f ℝ vec3f := ⟨fun a s => ⟨a.x / s, a.y / s, a.z / s⟩⟩

/-- Modelled from the spec: scalar-divided-by-vector (componentwise) of the
math library, used in `1.0f / ray.d`. -/
instance : HDiv ℝ vec3f vec3f := ⟨fun s a => ⟨s / a.x, s / a.y, s / a.z⟩⟩

/-- Modelled from the spec: scalar-minus-vector (componentwise) for 2-vectors,
used in `uv = 1 - uv`. -/
instance : HSub ℝ vec2f vec2f := ⟨fun s a => ⟨s - a.x, s - a.y⟩⟩

/-- Modelled from the spec: dot product of the math library. -/
def dot (a b : vec3f) : ℝ := a.x * b.x + a.y * b.y + a.z * b.z

/-- Modelled from the spec: cross product of the math library. -/
def cross (a b : vec3f) : vec3f :=
  ⟨a.y * b.z - a.z * b.y, a.z * b.x - a.x * b.z, a.x * b.y - a.y * b.x⟩

/-- Modelled from the spec: Euclidean length of the math library. -/
def length (a : vec3f) : ℝ := Real.sqrt (dot a a)

/-- Modelled from the spec: `normalize` of the math library (guarded against
zero length, returning the argument unchanged in that case). -/
def normalize (a : vec3f) : vec3f :=
  let l := length a
  if l ≠ 0 then a / l else a

/-- Modelled from the spec: componentwise maximum of two 3-vectors. -/
def vmax (a b : vec3f) : vec3f := ⟨max a.x b.x, max a.y b.y, max a.z b.z⟩

/-- Modelled from the spec: componentwise minimum of two 3-vectors. -/
def vmin (a b : vec3f) : vec3f := ⟨min a.x b.x, min a.y b.y, min a.z b.z⟩

/-- Modelled from the spec: componentwise absolute value of a 3-vector. -/
def vabs (a : vec3f) : vec3f := ⟨|a.x|, |a.y|, |a.z|⟩

/-- Modelled from the spec: maximum component of a 3-vector (the single
argument `max` overload of the math library). -/
def maxComp (a : vec3f) : ℝ := max (max a.x a.y) a.z

/-- Modelled from the spec: minimum component of a 3-vector (the single
argument `min` overload of the math library). -/
def minComp (a : vec3f) : ℝ := min (min a.x a.y) a.z

/-- Modelled from the spec: scalar clamp of the math library. -/
def clamp (x lo hi : ℝ) : ℝ := min (max x lo) hi

/-- Modelled from the spec: the scalar equality helper `equal` of the math
library used by the infinite-cylinder parallel test. -/
def equal (a b : ℝ) : Bool := decide (a = b)

/-- IEEE `atan2` (mathematical model; `atan2 0 0 = 0` as in C). -/
def atan2 (y x : ℝ) : ℝ :=
  if 0 < x then Real.arctan (y / x)
  else if x < 0 then
    (if 0 ≤ y then Real.arctan (y / x) + Real.pi else Real.arctan (y / x) - Real.pi)
  else if 0 < y then Real.pi / 2
  else if y < 0 then -(Real.pi / 2)
  else 0

/-- Largest single-precision float (`flt_max`), as a real constant. -/
def flt_max : ℝ := 3.402823466e38

/-- Ray epsilon (`ray_eps = 1e-4f`). -/
def ray_eps : ℝ := 1e-4

/-- `pif`: single-precision pi of the source, modelled exactly. -/
def pif : ℝ := Real.pi

/-- Rays with origin, direction and min/max t value (`ray3f`). -/
structure ray3f where
  o : vec3f := ⟨0, 0, 0⟩
  d : vec3f := ⟨0, 0, 1⟩
  tmin : ℝ := ray_eps
  tmax : ℝ := flt_max

/-- Axis-aligned bounding box (`bbox3f`). -/
structure bbox3f where
  min : vec3f
  max : vec3f

/-- Cone query (`cone_data`). -/
structure cone_data where
  origin : vec3f := ⟨0, 0, 0⟩
  dir : vec3f := ⟨0, 0, 1⟩
  spread : ℝ
  tmin : ℝ := ray_eps
  tmax : ℝ := flt_max

/-- `intersect_point` (ray overload): project the point on the ray's line,
check bounds and perpendicular distance against the radius. -/
def intersect_point (ray : ray3f) (p : vec3f) (r : ℝ) (uv : vec2f) (dist : ℝ) :
    Bool × vec2f × ℝ :=
  let w := p - ray.o
  let t := dot w ray.d / dot ray.d ray.d
  if t < ray.tmin ∨ t > ray.tmax then (false, uv, dist)
  else
    let rp := ray.o + ray.d * t
    let prp := p - rp
    if dot prp prp > r * r then (false, uv, dist)
    else (true, ⟨0, 0⟩, t)

/-- `intersect_line` (ray overload): mutually closest points of the ray and
the segment's infinite line, with the segment parameter clamped to `[0,1]`
and the distance tested against the interpolated radius. -/
def intersect_line (ray : ray3f) (p0 p1 : vec3f) (r0 r1 : ℝ) (uv : vec2f)
    (dist : ℝ) : Bool × vec2f × ℝ :=
  let u := ray.d
  let v := p1 - p0
  let w := ray.o - p0
  let a := dot u u
  let b := dot u v
  let c := dot v v
  let d := dot u w
  let e := dot v w
  let det := a * c - b * b
  if det = 0 then (false, uv, dist)
  else
    let t := (b * e - c * d) / det
    let s := (a * e - b * d) / det
    if t < ray.tmin ∨ t > ray.tmax then (false, uv, dist)
    else
      let s' := clamp s 0 1
      let pr := ray.o + ray.d * t
      let pl := p0 + (p1 - p0) * s'
      let prl := pr - pl
      let d2 := dot prl prl
      let r := r0 * (1 - s') + r1 * s'
      if d2 > r * r then (false, uv, dist)
      else (true, ⟨s', 0⟩, t)

/-- `intersect_infinite_cylinder`: entry/exit parameters of the ray on the
infinite cylinder of radius `radius` around the axis through `p0`.  The two
out-parameters `inD`/`outD` are returned (left at `0` on the branch that
does not set them, where the caller never reads them). -/
def intersect_infinite_cylinder (ray : ray3f) (p0 _p1 : vec3f) (radius : ℝ)
    (axis : vec3f) : Bool × ℝ × ℝ :=
  let r_c := ray.o - p0
  let r_2 := radius * radius
  let n := cross ray.d axis
  let ln := length n
  if equal ln 0 then
    (decide (length (r_c - dot r_c axis * axis) ≤ radius), -1.0e21, 1.0e21)
  else
    let n' := normalize n
    let d := |dot r_c n'|
    if d ≤ radius then
      let O := cross r_c axis
      let t := -(dot O n') / ln
      let O' := normalize (cross n' axis)
      let s := |Real.sqrt (r_2 - d * d) / dot ray.d O'|
      (true, t - s, t + s)
    else (false, 0, 0)

/-- `intersect_cylinder` (ray overload): infinite-cylinder interval clipped by
the two end-cap planes, then parameters recomputed by the line solver; only
`r0` feeds the infinite-cylinder step and `r1` is never read. -/
def intersect_cylinder (ray : ray3f) (p0 p1 : vec3f) (r0 r1 : ℝ) (uv : vec2f)
    (dist : ℝ) : Bool × vec2f × ℝ :=
  let axis := normalize (p1 - p0)
  let baseDistance := -(dot (-axis) p0)
  let topDistance := -(dot axis p1)
  let step0 := intersect_infinite_cylinder ray p0 p1 r0 axis
  if ¬ step0.1 then (false, uv, dist)
  else
    let inD0 := step0.2.1
    let outD0 := step0.2.2
    -- bottom end-cap plane
    let dcB := dot (-axis) ray.d
    let dwB := dot (-axis) ray.o + baseDistance
    let bot : Option (ℝ × ℝ) :=
      if dcB = 0 then (if dwB ≥ 0 then none else some (inD0, outD0))
      else
        let t := -dwB / dcB
        if dcB ≥ 0 then
          let outD1 := if t > inD0 ∧ t < outD0 then t else outD0
          if t < inD0 then none else some (inD0, outD1)
        else
          let inD1 := if t > inD0 ∧ t < outD0 then t else inD0
          if t > outD0 then none else some (inD1, outD0)
    match bot with
    | none => (false, uv, dist)
    | some (inD1, outD1) =>
      -- top end-cap plane
      let dcT := dot axis ray.d
      let dwT := dot axis ray.o + topDistance
      let top : Option (ℝ × ℝ) :=
        if dcT = 0 then (if dwT ≥ 0 then none else some (inD1, outD1))
        else
          let t := -dwT / dcT
          if dcT ≥ 0 then
            let outD2 := if t > inD1 ∧ t < outD1 then t else outD1
            if t < inD1 then none else some (inD1, outD2)
          else
            let inD2 := if t > inD1 ∧ t < outD1 then t else inD1
            if t > outD1 then none else some (inD2, outD1)
      match top with
      | none => (false, uv, dist)
      | some (inD, outD) =>
        if inD < 0 ∧ outD < 0 then (false, uv, dist)
        else
          let sel : Option ℝ :=
            if inD < outD ∧ inD > 0 then some inD
            else if outD > 0 then some outD
            else none
          match sel with
          | none => (false, uv, dist)
          | some t =>
            -- INSERTED: recompute parameters through the line system
            let u := ray.d
            let v := p1 - p0
            let w := ray.o - p0
            let a := dot u u
            let b := dot u v
            let c := dot v v
            let d := dot u w
            let e := dot v w
            let det := a * c - b * b
            let t' := (b * e - c * d) / det
            let s := (a * e - b * d) / det
            if t' < ray.tmin ∨ t' > ray.tmax then (false, uv, dist)
            else
              let s' := clamp s 0 1
              (true, ⟨s', 0⟩, t)

/-- `intersect_sphere` (ray overload): quadratic roots, both checked against
the bounds; `dist` is written from the second (far) root. -/
def intersect_sphere (ray : ray3f) (p : vec3f) (r : ℝ) (uv : vec2f) (dist : ℝ) :
    Bool × vec2f × ℝ :=
  let a := dot ray.d ray.d
  let b := 2 * dot (ray.o - p) ray.d
  let c := dot (ray.o - p) (ray.o - p) - r * r
  let dis := b * b - 4 * a * c
  if dis < 0 then (false, uv, dist)
  else
    let t1 := (-b - Real.sqrt dis) / (2 * a)
    if t1 < ray.tmin ∨ t1 > ray.tmax then (false, uv, dist)
    else
      let t := (-b + Real.sqrt dis) / (2 * a)
      if t < ray.tmin ∨ t > ray.tmax then (false, uv, dist)
      else
        let plocal := ((ray.o + ray.d * t) - p) / r
        let u0 := atan2 plocal.y plocal.x / (2 * pif)
        let u := if u0 < 0 then u0 + 1 else u0
        let v := Real.arccos (clamp plocal.z (-1) 1) / pif
        (true, ⟨u, v⟩, t)

/-- `intersect_triangle` (ray overload): Moller-Trumbore. -/
def intersect_triangle (ray : ray3f) (p0 p1 p2 : vec3f) (uv : vec2f) (dist : ℝ) :
    Bool × vec2f × ℝ :=
  let edge1 := p1 - p0
  let edge2 := p2 - p0
  let pvec := cross ray.d edge2
  let det := dot edge1 pvec
  if det = 0 then (false, uv, dist)
  else
    let inv_det := 1 / det
    let tvec := ray.o - p0
    let u := dot tvec pvec * inv_det
    if u < 0 ∨ u > 1 then (false, uv, dist)
    else
      let qvec := cross tvec edge1
      let v := dot ray.d qvec * inv_det
      if v < 0 ∨ u + v > 1 then (false, uv, dist)
      else
        let t := dot edge2 qvec * inv_det
        if t < ray.tmin ∨ t > ray.tmax then (false, uv, dist)
        else (true, ⟨u, v⟩, t)

/-- `intersect_quad` (ray overload): two triangles sharing the `p1`-`p3`
diagonal, the second tested with `tmax` narrowed to the first hit and with
reflected parameterization. -/
def intersect_quad (ray : ray3f) (p0 p1 p2 p3 : vec3f) (uv : vec2f) (dist : ℝ) :
    Bool × vec2f × ℝ :=
  if p2 = p3 then intersect_triangle ray p0 p1 p3 uv dist
  else
    let res1 := intersect_triangle ray p0 p1 p3 uv dist
    let tray := if res1.1 then { ray with tmax := res1.2.2 } else ray
    let res2 := intersect_triangle tray p2 p3 p1 res1.2.1 res1.2.2
    if res2.1 then (true, (1 : ℝ) - res2.2.1, res2.2.2)
    else (res1.1, res2.2.1, res2.2.2)

/-- `intersect_bbox` (recomputing overload): slab test with the inverse
direction computed in place, sign-based entry/exit swap, and the
`1.00000024` upper-bound slack. -/
def intersect_bbox (ray : ray3f) (bbox : bbox3f) : Bool :=
  let invd := (1 : ℝ) / ray.d
  let t0 := (bbox.min - ray.o) * invd
  let t1 := (bbox.max - ray.o) * invd
  let sx := if invd.x < 0 then ((t1.x, t0.x) : ℝ × ℝ) else (t0.x, t1.x)
  let sy := if invd.y < 0 then ((t1.y, t0.y) : ℝ × ℝ) else (t0.y, t1.y)
  let sz := if invd.z < 0 then ((t1.z, t0.z) : ℝ × ℝ) else (t0.z, t1.z)
  let tmin := max sz.1 (max sy.1 (max sx.1 ray.tmin))
  let tmax := min sz.2 (min sy.2 (min sx.2 ray.tmax))
  let tmax' := tmax * 1.00000024
  decide (tmin ≤ tmax')

/-- `intersect_bbox` (precomputed inverse-direction overload): slab test via
componentwise min/max, same slack. -/
def intersect_bbox_dinv (ray : ray3f) (ray_dinv : vec3f) (bbox : bbox3f) :
    Bool :=
  let it_min := (bbox.min - ray.o) * ray_dinv
  let it_max := (bbox.max - ray.o) * ray_dinv
  let tmin := vmin it_min it_max
  let tmax := vmax it_min it_max
  let t0 := max (maxComp tmin) ray.tmin
  let t1 := min (minComp tmax) ray.tmax
  let t1' := t1 * 1.00000024
  decide (t0 ≤ t1')

/-- Mutable state of the duplicated cone-sampling loop: the hit counter
`nPoints`, the tracked `minDistance`, the shared out-parameter `t_dist`
(initialized to the sentinel `-1`), and the caller's `uv` vector that gets a
`push_back` on every successful sample. -/
structure cone_sample_state where
  nPoints : ℕ
  minDistance : ℝ
  t_dist : ℝ
  uvs : List vec2f

/-- `phi` of the sampling loop: the golden ratio squared
(`phi = (sqrt(5)+1)*0.5; phi *= phi`). -/
def conePhiSq : ℝ := ((Real.sqrt 5 + 1) * 0.5) * ((Real.sqrt 5 + 1) * 0.5)

/-- The spiral radius of sample `i`:
`r = sqrtf(i - 0.5f) / sqrtf(N_CONE_POINTS - 0.5f)` with the (dead)
`i > N_CONE_POINTS` guard of the source. -/
def sampleR (NPts i : ℕ) : ℝ :=
  if i > NPts then 1 else Real.sqrt ((i : ℝ) - 0.5) / Real.sqrt ((NPts : ℝ) - 0.5)

/-- One iteration of the cone-sampling loop shared by all five cone
overloads.  `test i r t` is the per-sample solver call of the overload,
receiving the sample index, the spiral radius `r`, and the current value of
the shared out-parameter `t_dist`; it returns the solver's flag and the
values left in the out-parameters `uv_` (fresh, zero-initialized at the
call) and `t_dist`.  The disc point and the `direction` toward it are
computed exactly as in the source - and, exactly as in the source, never
reach the solver call. -/
def cone_sample_body (coneCircleV : vec3f) (coneCircleR : ℝ)
    (planeXAxis planeYAxis origin : vec3f) (NPts : ℕ)
    (test : ℕ → ℝ → ℝ → Bool × vec2f × ℝ) (st : cone_sample_state) (i : ℕ) :
    cone_sample_state :=
  let r := sampleR NPts i
  let theta := 2 * pif * (i : ℝ) / conePhiSq
  let point := coneCircleV + (planeXAxis * coneCircleR * r * Real.cos theta +
      planeYAxis * coneCircleR * r * Real.sin theta)
  let direction := normalize (point - origin)
  let res := test i r st.t_dist
  if res.1 then
    { nPoints := st.nPoints + 1,
      minDistance := if st.minDistance > res.2.2 then res.2.2 else st.minDistance,
      t_dist := res.2.2,
      uvs := st.uvs ++ [res.2.1] }
  else { st with t_dist := res.2.2 }

/-- The full cone-sampling loop `for (int i = 1; i <= N_CONE_POINTS; i++)`. -/
def cone_sample_loop (coneCircleV : vec3f) (coneCircleR : ℝ)
    (planeXAxis planeYAxis origin : vec3f) (NPts : ℕ)
    (test : ℕ → ℝ → ℝ → Bool × vec2f × ℝ) (st0 : cone_sample_state) :
    cone_sample_state :=
  (List.range NPts).foldl
    (fun st k =>
      cone_sample_body coneCircleV coneCircleR planeXAxis planeYAxis origin
        NPts test st (k + 1))
    st0

/-- The loop state reached by `intersect_point` (cone overload). -/
def point_cone_state (NPts : ℕ) (cone : cone_data) (p : vec3f) (radius : ℝ) :
    cone_sample_state :=
  let ray : ray3f :=
    { o := cone.origin, d := cone.dir, tmin := cone.tmin, tmax := cone.tmax }
  let coneCircleV := cone.origin + cone.dir * length ((p + radius) - cone.origin)
  let coneCircleR := length (coneCircleV - cone.origin) * Real.tan cone.spread
  let planeXAxis := normalize (cross ⟨0, 0, 1⟩ (-cone.dir))
  let planeYAxis := normalize (cross (-cone.dir) planeXAxis)
  cone_sample_loop coneCircleV coneCircleR planeXAxis planeYAxis cone.origin
    NPts (fun _i r t2 => intersect_point ray p r ⟨0, 0⟩ t2)
    { nPoints := 0, minDistance := flt_max, t_dist := -1, uvs := [] }

/-- The post-loop decision shared by all five cone overloads: the coverage
test `areaFraction <= 0.3f` and the `t_dist != -1` sentinel test.  The
caller's `uv` vector has already received one `push_back` per successful
sample, whether or not the overload returns a hit. -/
def cone_post (NPts : ℕ) (st : cone_sample_state) (uv : List vec2f) (dist : ℝ) :
    Bool × List vec2f × ℝ :=
  let areaFraction := (st.nPoints : ℝ) / (NPts : ℝ)
  if areaFraction ≤ 0.3 then (false, uv ++ st.uvs, dist)
  else if st.t_dist ≠ -1 then (true, uv ++ st.uvs, st.t_dist)
  else (false, uv ++ st.uvs, dist)

/-- `intersect_point` (cone overload).  Note that the per-sample call
`intersect_point(ray, p, r, uv_, t_dist)` passes the spiral radius `r`,
not the `radius` parameter, and tests the unchanged axis ray. -/
def intersect_point_cone (NPts : ℕ) (cone : cone_data) (p : vec3f)
    (radius : ℝ) (uv : List vec2f) (dist : ℝ) : Bool × List vec2f × ℝ :=
  cone_post NPts (point_cone_state NPts cone p radius) uv dist

/-- The loop state reached by `intersect_line` (cone overload). -/
def line_cone_state (NPts : ℕ) (cone : cone_data) (p0 p1 : vec3f) (r0 r1 : ℝ) :
    cone_sample_state :=
  let ray : ray3f :=
    { o := cone.origin, d := cone.dir, tmin := cone.tmin, tmax := cone.tmax }
  let coneCircleV :=
    cone.origin + cone.dir * length ((vmax p0 p1 + r0) - cone.origin)
  let coneCircleR := length (coneCircleV - cone.origin) * Real.tan cone.spread
  let planeXAxis := normalize (cross ⟨0, 0, 1⟩ (-cone.dir))
  let planeYAxis := normalize (cross (-cone.dir) planeXAxis)
  cone_sample_loop coneCircleV coneCircleR planeXAxis planeYAxis cone.origin
    NPts (fun _i _r t2 => intersect_line ray p0 p1 r0 r1 ⟨0, 0⟩ t2)
    { nPoints := 0, minDistance := flt_max, t_dist := -1, uvs := [] }

/-- `intersect_line` (cone overload). -/
def intersect_line_cone (NPts : ℕ) (cone : cone_data) (p0 p1 : vec3f)
    (r0 r1 : ℝ) (uv : List vec2f) (dist : ℝ) : Bool × List vec2f × ℝ :=
  cone_post NPts (line_cone_state NPts cone p0 p1 r0 r1) uv dist

/-- The loop state reached by `intersect_cylinder` (cone overload). -/
def cylinder_cone_state (NPts : ℕ) (cone : cone_data) (p0 p1 : vec3f)
    (r0 r1 : ℝ) : cone_sample_state :=
  let ray : ray3f :=
    { o := cone.origin, d := cone.dir, tmin := cone.tmin, tmax := cone.tmax }
  let coneCircleV :=
    cone.origin + cone.dir * length ((vmax p0 p1 + r0) - cone.origin)
  let coneCircleR := length (coneCircleV - cone.origin) * Real.tan cone.spread
  let planeXAxis := normalize (cross ⟨0, 0, 1⟩ (-cone.dir))
  let planeYAxis := normalize (cross (-cone.dir) planeXAxis)
  cone_sample_loop coneCircleV coneCircleR planeXAxis planeYAxis cone.origin
    NPts (fun _i _r t2 => intersect_cylinder ray p0 p1 r0 r1 ⟨0, 0⟩ t2)
    { nPoints := 0, minDistance := flt_max, t_dist := -1, uvs := [] }

/-- `intersect_cylinder` (cone overload). -/
def intersect_cylinder_cone (NPts : ℕ) (cone : cone_data) (p0 p1 : vec3f)
    (r0 r1 : ℝ) (uv : List vec2f) (dist : ℝ) : Bool × List vec2f × ℝ :=
  cone_post NPts (cylinder_cone_state NPts cone p0 p1 r0 r1) uv dist

/-- The loop state reached by `intersect_triangle` (cone overload). -/
def triangle_cone_state (NPts : ℕ) (cone : cone_data) (p0 p1 p2 : vec3f) :
    cone_sample_state :=
  let ray : ray3f :=
    { o := cone.origin, d := cone.dir, tmin := cone.tmin, tmax := cone.tmax }
  let coneCircleV :=
    cone.origin + cone.dir * length ((vmax p0 p1 + p2) - cone.origin)
  let coneCircleR := length (coneCircleV - cone.origin) * Real.tan cone.spread
  let planeXAxis := normalize (cross ⟨0, 0, 1⟩ (-cone.dir))
  let planeYAxis := normalize (cross (-cone.dir) planeXAxis)
  cone_sample_loop coneCircleV coneCircleR planeXAxis planeYAxis cone.origin
    NPts (fun _i _r t2 => intersect_triangle ray p0 p1 p2 ⟨0, 0⟩ t2)
    { nPoints := 0, minDistance := flt_max, t_dist := -1, uvs := [] }

/-- `intersect_triangle` (cone overload). -/
def intersect_triangle_cone (NPts : ℕ) (cone : cone_data) (p0 p1 p2 : vec3f)
    (uv : List vec2f) (dist : ℝ) : Bool × List vec2f × ℝ :=
  cone_post NPts (triangle_cone_state NPts cone p0 p1 p2) uv dist

/-- The loop state reached by `intersect_quad` (cone overload). -/
def quad_cone_state (NPts : ℕ) (cone : cone_data) (p0 p1 p2 p3 : vec3f) :
    cone_sample_state :=
  let ray : ray3f :=
    { o := cone.origin, d := cone.dir, tmin := cone.tmin, tmax := cone.tmax }
  let coneCircleV :=
    cone.origin + cone.dir * length ((vmax p0 p1 + p2) - cone.origin)
  let coneCircleR := length (coneCircleV - cone.origin) * Real.tan cone.spread
  let planeXAxis := normalize (cross ⟨0, 0, 1⟩ (-cone.dir))
  let planeYAxis := normalize (cross (-cone.dir) planeXAxis)
  cone_sample_loop coneCircleV coneCircleR planeXAxis planeYAxis cone.origin
    NPts (fun _i _r t2 => intersect_quad ray p0 p1 p2 p3 ⟨0, 0⟩ t2)
    { nPoints := 0, minDistance := flt_max, t_dist := -1, uvs := [] }

/-- `intersect_quad` (cone overload). -/
def intersect_quad_cone (NPts : ℕ) (cone : cone_data) (p0 p1 p2 p3 : vec3f)
    (uv : List vec2f) (dist : ℝ) : Bool × List vec2f × ℝ :=
  cone_post NPts (quad_cone_state NPts cone p0 p1 p2 p3) uv dist

/-- `AABBPolygon`: the 26-entry box-vertex-adjacency table, mapping the
base-3 classification code to the ordered list of silhouette corner
indices (`nPoints` is the list length; code 13 maps to the empty list). -/
def AABBPolygon (type : ℕ) : List ℕ :=
  if type = 0 then [1, 5, 4, 6, 2, 3]
  else if type = 1 then [0, 2, 3, 1, 5, 4]
  else if type = 2 then [0, 2, 3, 7, 5, 4]
  else if type = 3 then [0, 4, 6, 2, 3, 1]
  else if type = 4 then [0, 2, 3, 1]
  else if type = 5 then [0, 2, 3, 7, 5, 1]
  else if type = 6 then [0, 4, 6, 7, 3, 1]
  else if type = 7 then [0, 2, 6, 7, 3, 1]
  else if type = 8 then [0, 2, 6, 7, 5, 1]
  else if type = 9 then [0, 1, 5, 4, 6, 2]
  else if type = 10 then [0, 1, 5, 4]
  else if type = 11 then [0, 1, 3, 7, 5, 4]
  else if type = 12 then [0, 4, 6, 2]
  else if type = 13 then []
  else if type = 14 then [1, 3, 7, 5]
  else if type = 15 then [0, 4, 6, 7, 3, 2]
  else if type = 16 then [2, 6, 7, 3]
  else if type = 17 then [1, 3, 2, 6, 7, 5]
  else if type = 18 then [0, 1, 5, 7, 6, 2]
  else if type = 19 then [0, 1, 5, 7, 6, 4]
  else if type = 20 then [0, 1, 3, 7, 6, 4]
  else if type = 21 then [0, 4, 5, 7, 6, 2]
  else if type = 22 then [4, 5, 7, 6]
  else if type = 23 then [1, 3, 7, 6, 4, 5]
  else if type = 24 then [0, 4, 5, 7, 3, 2]
  else if type = 25 then [2, 6, 4, 5, 7, 3]
  else [1, 3, 2, 6, 4, 5]

/-- `setVectorValue`: write one coordinate of a 3-vector by index. -/
def setVectorValue (vec : vec3f) (pos : ℕ) (value : ℝ) : vec3f :=
  if pos = 0 then { vec with x := value }
  else if pos = 1 then { vec with y := value }
  else { vec with z := value }

/-- `getVectorValue`: read one coordinate of a 3-vector by index. -/
def getVectorValue (vec : vec3f) (pos : ℕ) : ℝ :=
  if pos = 0 then vec.x
  else if pos = 1 then vec.y
  else vec.z

/-- `cone_intersect_bbox`: half-space rejection, axis-ray slab shortcut,
vertex-containment code, silhouette-corner quadratic test, and the
gradient-ascent edge refinement.  The corner scan is a fold over the
silhouette polygon carrying the early-accept flag and the running
`iMax`/`jMax` pair (`none` models the C++ `-1` sentinel); the per-corner
arrays `X`, `PmV`, ... are pure functions of the corner index. -/
def cone_intersect_bbox (cone : cone_data) (bbox : bbox3f) (_printing : Bool) :
    Bool :=
  let box_centre := (bbox.max + bbox.min) * (0.5 : ℝ)
  let box_e := (bbox.max - bbox.min) * (0.5 : ℝ)
  let box_cone_vec := box_centre - cone.origin
  let cone_dir_dot_box_cone := dot cone.dir box_cone_vec
  let radius := dot box_e (vabs cone.dir)
  if cone_dir_dot_box_cone + radius ≤ 0 then false
  else if intersect_bbox { o := cone.origin, d := cone.dir } bbox then true
  else
    let type :=
      (if box_cone_vec.x < -box_e.x then 2
       else if box_cone_vec.x > box_e.x then 0 else 1) +
      3 * (if box_cone_vec.y < -box_e.y then 2
           else if box_cone_vec.y > box_e.y then 0 else 1) +
      9 * (if box_cone_vec.z < -box_e.z then 2
           else if box_cone_vec.z > box_e.z then 0 else 1)
    if type = 13 then true
    else
      let polygon := AABBPolygon type
      let coneCosAngle_2 := Real.cos cone.spread * Real.cos cone.spread
      let X : ℕ → vec3f := fun j =>
        ⟨if j % 2 = 1 then box_e.x else -box_e.x,
         if j / 2 % 2 = 1 then box_e.y else -box_e.y,
         if j / 4 % 2 = 1 then box_e.z else -box_e.z⟩
      let coneDirDOTPmV : ℕ → ℝ := fun j =>
        dot cone.dir (X j) + cone_dir_dot_box_cone
      let PmV : ℕ → vec3f := fun j => X j + box_cone_vec
      let sqrConeDirDOTPmV : ℕ → ℝ := fun j => coneDirDOTPmV j * coneDirDOTPmV j
      let sqrLenPmV : ℕ → ℝ := fun j => dot (PmV j) (PmV j)
      let scan :=
        polygon.enum.foldl
          (fun acc ij =>
            if acc.1 then acc
            else
              let i := ij.1
              let j := ij.2
              if coneDirDOTPmV j > 0 then
                let q := sqrConeDirDOTPmV j - coneCosAngle_2 * sqrLenPmV j
                if q > 0 then (true, acc.2)
                else
                  match acc.2 with
                  | none => ((false, some (i, j)) : Bool × Option (ℕ × ℕ))
                  | some im =>
                    if sqrConeDirDOTPmV j * sqrLenPmV im.2 >
                        sqrConeDirDOTPmV im.2 * sqrLenPmV j then
                      (false, some (i, j))
                    else (false, some im)
              else acc)
          ((false, none) : Bool × Option (ℕ × ℕ))
      if scan.1 then true
      else
        match scan.2 with
        | none => false
        | some cp =>
          let iMax := cp.1
          let jMax := cp.2
          let maxSqrLenPmV := sqrLenPmV jMax
          let maxConeDirDOTPmV := coneDirDOTPmV jMax
          let maxX := X jMax
          let maxPmV : ℕ → ℝ := fun k => getVectorValue (PmV jMax) k
          let coneDirection : ℕ → ℝ := fun k => getVectorValue cone.dir k
          -- counterclockwise edge
          let iNext := if iMax < polygon.length - 1 then iMax + 1 else 0
          let jNext := polygon.getD iNext 0
          let jDiff : ℤ := (jNext : ℤ) - (jMax : ℤ)
          let s : ℝ := if jDiff > 0 then 1 else -1
          let k0 := jDiff.natAbs / 2
          let fder :=
            s * (coneDirection k0 * maxSqrLenPmV - maxConeDirDOTPmV * maxPmV k0)
          if fder > 0 then
            let k1 := (k0 + 1) % 3
            let k2 := (k1 + 1) % 3
            let numer := maxPmV k1 * maxPmV k1 + maxPmV k2 * maxPmV k2
            let denom :=
              coneDirection k1 * maxPmV k1 + coneDirection k2 * maxPmV k2
            let MmV0 := setVectorValue ⟨0, 0, 0⟩ k0 (numer * coneDirection k0)
            let MmV1 := setVectorValue MmV0 k1
              (denom * (getVectorValue maxX k1 + getVectorValue box_cone_vec k1))
            let MmV := setVectorValue MmV1 k2
              (denom * (getVectorValue maxX k2 + getVectorValue box_cone_vec k2))
            let DdMmV := dot cone.dir MmV
            let q := DdMmV * DdMmV - coneCosAngle_2 * dot MmV MmV
            if q > 0 then true
            else
              let det :=
                s * (coneDirection k1 * maxPmV k2 - coneDirection k2 * maxPmV k1)
              decide (det ≤ 0)
          else
            -- clockwise edge
            let iPrev := if iMax > 0 then iMax - 1 else polygon.length - 1
            let jPrev := polygon.getD iPrev 0
            let jDiffP : ℤ := (jMax : ℤ) - (jPrev : ℤ)
            let sP : ℝ := if jDiffP > 0 then 1 else -1
            let k0P := jDiffP.natAbs / 2
            let fderP := -sP *
              (coneDirection k0P * maxSqrLenPmV - maxConeDirDOTPmV * maxPmV k0P)
            if fderP > 0 then
              let k1 := (k0P + 1) % 3
              let k2 := (k1 + 1) % 3
              let numer := maxPmV k1 * maxPmV k1 + maxPmV k2 * maxPmV k2
              let denom :=
                coneDirection k1 * maxPmV k1 + coneDirection k2 * maxPmV k2
              let MmV0 := setVectorValue ⟨0, 0, 0⟩ k0P (numer * coneDirection k0P)
              let MmV1 := setVectorValue MmV0 k1
                (denom * (getVectorValue maxX k1 + getVectorValue box_cone_vec k1))
              let MmV := setVectorValue MmV1 k2
                (denom * (getVectorValue maxX k2 + getVectorValue box_cone_vec k2))
              let DdMmV := dot cone.dir MmV
              let q := DdMmV * DdMmV - coneCosAngle_2 * dot MmV MmV
              if q > 0 then true
              else
                let det := sP *
                  (coneDirection k1 * maxPmV k2 - coneDirection k2 * maxPmV k1)
                decide (det ≤ 0)
            else false

/-- `closestuv_triangle`: 7-region Voronoi classification of a point against
a triangle. -/
def closestuv_triangle (pos p0 p1 p2 : vec3f) : vec2f :=
  let ab := p1 - p0
  let ac := p2 - p0
  let ap := pos - p0
  let d1 := dot ab ap
  let d2 := dot ac ap
  if d1 ≤ 0 ∧ d2 ≤ 0 then ⟨0, 0⟩
  else
    let bp := pos - p1
    let d3 := dot ab bp
    let d4 := dot ac bp
    if d3 ≥ 0 ∧ d4 ≤ d3 then ⟨1, 0⟩
    else
      let vc := d1 * d4 - d3 * d2
      if vc ≤ 0 ∧ d1 ≥ 0 ∧ d3 ≤ 0 then ⟨d1 / (d1 - d3), 0⟩
      else
        let cp := pos - p2
        let d5 := dot ab cp
        let d6 := dot ac cp
        if d6 ≥ 0 ∧ d5 ≤ d6 then ⟨0, 1⟩
        else
          let vb := d5 * d2 - d1 * d6
          if vb ≤ 0 ∧ d2 ≥ 0 ∧ d6 ≤ 0 then ⟨0, d2 / (d2 - d6)⟩
          else
            let va := d3 * d6 - d5 * d4
            if va ≤ 0 ∧ d4 - d3 ≥ 0 ∧ d5 - d6 ≥ 0 then
              let w := (d4 - d3) / ((d4 - d3) + (d5 - d6))
              ⟨1 - w, w⟩
            else
              let denom := 1 / (va + vb + vc)
              let u := vb * denom
              let v := vc * denom
              ⟨u, v⟩

/-- `overlap_triangle`: closest-point distance against the interpolated
radius plus the maximum distance. -/
def overlap_triangle (pos : vec3f) (dist_max : ℝ) (p0 p1 p2 : vec3f)
    (r0 r1 r2 : ℝ) (uv : vec2f) (dist : ℝ) : Bool × vec2f × ℝ :=
  let cuv := closestuv_triangle pos p0 p1 p2
  let p := p0 * (1 - cuv.x - cuv.y) + p1 * cuv.x + p2 * cuv.y
  let r := r0 * (1 - cuv.x - cuv.y) + r1 * cuv.x + r2 * cuv.y
  let dd := dot (p - pos) (p - pos)
  if dd > (dist_max + r) * (dist_max + r) then (false, uv, dist)
  else (true, cuv, Real.sqrt dd)

/-- `overlap_quad`: two sub-triangle overlap tests; note the source negates
the second test (`if (!overlap_triangle(...)) hit = true`). -/
def overlap_quad (pos : vec3f) (dist_max : ℝ) (p0 p1 p2 p3 : vec3f)
    (r0 r1 r2 r3 : ℝ) (uv : vec2f) (dist : ℝ) : Bool × vec2f × ℝ :=
  if p2 = p3 then overlap_triangle pos dist_max p0 p1 p3 r0 r1 r2 uv dist
  else
    let o1 := overlap_triangle pos dist_max p0 p1 p3 r0 r1 r2 uv dist
    let dist_max1 := if o1.1 then o1.2.2 else dist_max
    let o2 := overlap_triangle pos dist_max1 p2 p3 p1 r2 r3 r1 o1.2.1 o1.2.2
    if o2.1 then (o1.1, o2.2.1, o2.2.2)
    else (true, (1 : ℝ) - o2.2.1, o2.2.2)

/-! Componentwise evaluation lemmas for the modelled math library. -/

@[simp] theorem vec2f_mk_x (a b : ℝ) : (vec2f.mk a b).x = a := rfl
@[simp] theorem vec2f_mk_y (a b : ℝ) : (vec2f.mk a b).y = b := rfl
@[simp] theorem vec3f_mk_x (a b c : ℝ) : (vec3f.mk a b c).x = a := rfl
@[simp] theorem vec3f_mk_y (a b c : ℝ) : (vec3f.mk a b c).y = b := rfl
@[simp] theorem vec3f_mk_z (a b c : ℝ) : (vec3f.mk a b c).z = c := rfl

@[simp] theorem vec3f_add_def (a b : vec3f) :
    a + b = ⟨a.x + b.x, a.y + b.y, a.z + b.z⟩ := rfl
@[simp] theorem vec3f_sub_def (a b : vec3f) :
    a - b = ⟨a.x - b.x, a.y - b.y, a.z - b.z⟩ := rfl
@[simp] theorem vec3f_neg_def (a : vec3f) : -a = ⟨-a.x, -a.y, -a.z⟩ := rfl
@[simp] theorem vec3f_mul_def (a b : vec3f) :
    a * b = ⟨a.x * b.x, a.y * b.y, a.z * b.z⟩ := rfl
@[simp] theorem vec3f_smul_def (a : vec3f) (s : ℝ) :
    a * s = ⟨a.x * s, a.y * s, a.z * s⟩ := rfl
@[simp] theorem vec3f_smul_left_def (s : ℝ) (a : vec3f) :
    s * a = ⟨s * a.x, s * a.y, s * a.z⟩ := rfl
@[simp] theorem vec3f_sadd_def (a : vec3f) (s : ℝ) :
    a + s = ⟨a.x + s, a.y + s, a.z + s⟩ := rfl
@[simp] theorem vec3f_sdiv_def (a : vec3f) (s : ℝ) :
    a / s = ⟨a.x / s, a.y / s, a.z / s⟩ := rfl
@[simp] theorem vec3f_div_left_def (s : ℝ) (a : vec3f) :
    s / a = ⟨s / a.x, s / a.y, s / a.z⟩ := rfl
@[simp] theorem vec2f_ssub_def (s : ℝ) (a : vec2f) :
    s - a = ⟨s - a.x, s - a.y⟩ := rfl

theorem sqrt_four : Real.sqrt 4 = 2 := by
  rw [show (4 : ℝ) = 2 ^ 2 by norm_num, Real.sqrt_sq (by norm_num : (0:ℝ) ≤ 2)]

/-- C8: the ray-cylinder solver's output is independent of the second
endpoint radius: for every ray, endpoints, `r0`, and any two values `r1`
and `r1'`, `intersect_cylinder` returns the same hit flag and writes the
same `uv` and `dist` (only `r0` feeds the infinite-cylinder step and the
final `uv` ignores `r1` interpolation). -/
theorem c8_cylinder_ignores_r1 (ray : ray3f) (p0 p1 : vec3f) (r0 r1 r1' : ℝ)
    (uv : vec2f) (dist : ℝ) :
    intersect_cylinder ray p0 p1 r0 r1 uv dist =
      intersect_cylinder ray p0 p1 r0 r1' uv dist := rfl

/-- C10: the cone-point test's hit decision is independent of the point's
radius argument: for any two radius values with otherwise equal inputs,
`intersect_point` (cone overload) returns the same flag and writes the same
outputs, because each per-sample ray test receives the spiral sample radius
`r` as the point radius rather than the `radius` parameter (which only
feeds the unused disc geometry). -/
theorem c10_point_cone_ignores_radius (NPts : ℕ) (cone : cone_data)
    (p : vec3f) (radius radius' : ℝ) (uv : List vec2f) (dist : ℝ) :
    intersect_point_cone NPts cone p radius uv dist =
      intersect_point_cone NPts cone p radius' uv dist := rfl

/-- C2 (divergence witness): the cone-triangle sampler's outcome is
independent of the cone's spread.  The spread only determines the disc
radius, hence the per-sample disc points and the `direction` toward them -
and the source never passes that `direction` to the solver: every sample
tests the unchanged axis ray, contradicting the specified per-sample ray
construction. -/
theorem c2_triangle_cone_ignores_spread (NPts : ℕ) (cone : cone_data)
    (s' : ℝ) (p0 p1 p2 : vec3f) (uv : List vec2f) (dist : ℝ) :
    intersect_triangle_cone NPts { cone with spread := s' } p0 p1 p2 uv dist =
      intersect_triangle_cone NPts cone p0 p1 p2 uv dist := rfl

/-- The near quadratic root `(-b - sqrt(dis)) / (2a)` of the sphere test,
with `a`, `b`, `c`, `dis` exactly as computed by `intersect_sphere`. -/
def sphere_near_root (ray : ray3f) (p : vec3f) (r : ℝ) : ℝ :=
  let a := dot ray.d ray.d
  let b := 2 * dot (ray.o - p) ray.d
  let c := dot (ray.o - p) (ray.o - p) - r * r
  let dis := b * b - 4 * a * c
  (-b - Real.sqrt dis) / (2 * a)

/-- The far quadratic root `(-b + sqrt(dis)) / (2a)` of the sphere test. -/
def sphere_far_root (ray : ray3f) (p : vec3f) (r : ℝ) : ℝ :=
  let a := dot ray.d ray.d
  let b := 2 * dot (ray.o - p) ray.d
  let c := dot (ray.o - p) (ray.o - p) - r * r
  let dis := b * b - 4 * a * c
  (-b + Real.sqrt dis) / (2 * a)

/-- C5: `intersect_sphere` returns true only if both quadratic roots
individually lie within `[ray.tmin, ray.tmax]`; in particular, for a ray
whose origin is strictly inside the sphere, so that the near root falls
below `tmin`, the result is false, with no fallback to the far root. -/
theorem c5_sphere_requires_both_roots (ray : ray3f) (p : vec3f) (r : ℝ)
    (uv : vec2f) (dist : ℝ) :
    ((intersect_sphere ray p r uv dist).1 = true →
      ray.tmin ≤ sphere_near_root ray p r ∧
        sphere_near_root ray p r ≤ ray.tmax ∧
        ray.tmin ≤ sphere_far_root ray p r ∧
        sphere_far_root ray p r ≤ ray.tmax) ∧
    (dot (ray.o - p) (ray.o - p) < r * r →
      sphere_near_root ray p r < ray.tmin →
      (intersect_sphere ray p r uv dist).1 = false) := by
  constructor
  · intro h
    simp only [intersect_sphere, sphere_near_root, sphere_far_root]
    simp only [intersect_sphere] at h
    split_ifs at h with h1 h2 h3
    all_goals push_neg at h2 h3
    all_goals exact ⟨h2.1, h2.2, h3.1, h3.2⟩
  · intro _hin hlt
    simp only [sphere_near_root] at hlt
    simp only [intersect_sphere]
    split_ifs with h1 h2 h3
    · rfl
    · rfl
    · rfl
    · exact absurd (Or.inl hlt) h2

/-- C5 witness: the ray from the center of the unit sphere along `+z` with
default bounds starts strictly inside, its near root `-1` is below
`tmin = 1e-4`, and `intersect_sphere` reports a miss. -/
theorem c5_witness :
    dot ((⟨⟨0, 0, 0⟩, ⟨0, 0, 1⟩, ray_eps, flt_max⟩ : ray3f).o - ⟨0, 0, 0⟩)
        ((⟨⟨0, 0, 0⟩, ⟨0, 0, 1⟩, ray_eps, flt_max⟩ : ray3f).o - ⟨0, 0, 0⟩) <
      1 * 1 ∧
    sphere_near_root ⟨⟨0, 0, 0⟩, ⟨0, 0, 1⟩, ray_eps, flt_max⟩ ⟨0, 0, 0⟩ 1 <
      (⟨⟨0, 0, 0⟩, ⟨0, 0, 1⟩, ray_eps, flt_max⟩ : ray3f).tmin ∧
    (intersect_sphere ⟨⟨0, 0, 0⟩, ⟨0, 0, 1⟩, ray_eps, flt_max⟩ ⟨0, 0, 0⟩ 1
        ⟨0, 0⟩ 0).1 = false := by
  have hin : dot ((⟨⟨0, 0, 0⟩, ⟨0, 0, 1⟩, ray_eps, flt_max⟩ : ray3f).o -
      ⟨0, 0, 0⟩) ((⟨⟨0, 0, 0⟩, ⟨0, 0, 1⟩, ray_eps, flt_max⟩ : ray3f).o -
      ⟨0, 0, 0⟩) < 1 * 1 := by
    norm_num [dot]
  have hlt : sphere_near_root ⟨⟨0, 0, 0⟩, ⟨0, 0, 1⟩, ray_eps, flt_max⟩
      ⟨0, 0, 0⟩ 1 < (⟨⟨0, 0, 0⟩, ⟨0, 0, 1⟩, ray_eps, flt_max⟩ : ray3f).tmin := by
    norm_num [sphere_near_root, dot, ray_eps, sqrt_four]
  exact ⟨hin, hlt,
    (c5_sphere_requires_both_roots ⟨⟨0, 0, 0⟩, ⟨0, 0, 1⟩, ray_eps, flt_max⟩
      ⟨0, 0, 0⟩ 1 ⟨0, 0⟩ 0).2 hin hlt⟩

/-- Shared evaluation of the C4 scenario: the ray from `(0,0,-5)` along
`+z` against the unit sphere at the origin hits, and the source writes the
far root `6` (the intersection at `z = +1`) with `uv = (0,0)`. -/
theorem c4_eval :
    intersect_sphere ⟨⟨0, 0, -5⟩, ⟨0, 0, 1⟩, ray_eps, flt_max⟩ ⟨0, 0, 0⟩ 1
        ⟨0, 0⟩ 0 = (true, ⟨0, 0⟩, 6) := by
  norm_num [intersect_sphere, dot, ray_eps, flt_max, atan2, clamp, pif,
    max_def, min_def, Real.arccos_one]
  norm_num [show ((-10 : ℝ)) * -10 - 4 * ((0 * 0 + 0 * 0 + 1 * 1) *
    (0 * 0 + 0 * 0 + (-5 - 0) * (-5 - 0) - 1 * 1)) = 4 by ring, sqrt_four]

/-- C4 counterexample: in the concrete scenario the hit is reported at
distance 6 (the far root), not 4 as claimed. -/
theorem c4_counterexample :
    (intersect_sphere ⟨⟨0, 0, -5⟩, ⟨0, 0, 1⟩, ray_eps, flt_max⟩ ⟨0, 0, 0⟩ 1
        ⟨0, 0⟩ 0).1 = true ∧
    (intersect_sphere ⟨⟨0, 0, -5⟩, ⟨0, 0, 1⟩, ray_eps, flt_max⟩ ⟨0, 0, 0⟩ 1
        ⟨0, 0⟩ 0).2.2 ≠ 4 := by
  rw [c4_eval]
  norm_num

/-- C4 (amended): for the ray with origin `(0,0,-5)`, direction `(0,0,1)`,
`tmin = ray_eps`, `tmax = flt_max`, `intersect_sphere` against the unit
sphere at the origin returns true with reported distance 6 (the far root),
and the written uv satisfies `u` in `[0,1)` and `v` in `[0,1]`. -/
theorem c4_sphere_scenario_amended :
    (intersect_sphere ⟨⟨0, 0, -5⟩, ⟨0, 0, 1⟩, ray_eps, flt_max⟩ ⟨0, 0, 0⟩ 1
        ⟨0, 0⟩ 0).1 = true ∧
    (intersect_sphere ⟨⟨0, 0, -5⟩, ⟨0, 0, 1⟩, ray_eps, flt_max⟩ ⟨0, 0, 0⟩ 1
        ⟨0, 0⟩ 0).2.2 = 6 ∧
    0 ≤ (intersect_sphere ⟨⟨0, 0, -5⟩, ⟨0, 0, 1⟩, ray_eps, flt_max⟩ ⟨0, 0, 0⟩
        1 ⟨0, 0⟩ 0).2.1.x ∧
    (intersect_sphere ⟨⟨0, 0, -5⟩, ⟨0, 0, 1⟩, ray_eps, flt_max⟩ ⟨0, 0, 0⟩ 1
        ⟨0, 0⟩ 0).2.1.x < 1 ∧
    0 ≤ (intersect_sphere ⟨⟨0, 0, -5⟩, ⟨0, 0, 1⟩, ray_eps, flt_max⟩ ⟨0, 0, 0⟩
        1 ⟨0, 0⟩ 0).2.1.y ∧
    (intersect_sphere ⟨⟨0, 0, -5⟩, ⟨0, 0, 1⟩, ray_eps, flt_max⟩ ⟨0, 0, 0⟩ 1
        ⟨0, 0⟩ 0).2.1.y ≤ 1 := by
  rw [c4_eval]
  norm_num

/-- C6 (bug evaluation): for the position `(100,0,0)` at maximum distance 1
and the unit quad in the `z = 0` plane, neither sub-triangle overlaps, yet
`overlap_quad` returns true - the source negates the second sub-triangle
test (`if (!overlap_triangle(...)) hit = true;`), so a total miss is
reported as a hit. -/
theorem c6_overlap_quad_negation_bug :
    (overlap_quad ⟨100, 0, 0⟩ 1 ⟨0, 0, 0⟩ ⟨1, 0, 0⟩ ⟨1, 1, 0⟩ ⟨0, 1, 0⟩ 0 0 0 0
        ⟨0, 0⟩ 0).1 = true ∧
    (overlap_triangle ⟨100, 0, 0⟩ 1 ⟨0, 0, 0⟩ ⟨1, 0, 0⟩ ⟨0, 1, 0⟩ 0 0 0
        ⟨0, 0⟩ 0).1 = false ∧
    (overlap_triangle ⟨100, 0, 0⟩ 1 ⟨1, 1, 0⟩ ⟨0, 1, 0⟩ ⟨1, 0, 0⟩ 0 0 0
        ⟨0, 0⟩ 0).1 = false := by
  refine ⟨?_, ?_, ?_⟩ <;>
    norm_num [overlap_quad, overlap_triangle, closestuv_triangle, dot,
      vec3f.mk.injEq]

/-- C3 (amended): the cone-triangle sampler returns a hit iff the coverage
fraction `nPoints / N` strictly exceeds 0.3 AND the final shared `t_dist`
differs from the `-1` sentinel; a fraction exactly 0.3 and a zero-hit run
are misses. -/
theorem c3_triangle_cone_threshold (NPts : ℕ) (cone : cone_data)
    (p0 p1 p2 : vec3f) (uv : List vec2f) (dist : ℝ) :
    (intersect_triangle_cone NPts cone p0 p1 p2 uv dist).1 = true ↔
      (0.3 < ((triangle_cone_state NPts cone p0 p1 p2).nPoints : ℝ) / (NPts : ℝ) ∧
        (triangle_cone_state NPts cone p0 p1 p2).t_dist ≠ -1) := by
  simp only [intersect_triangle_cone, cone_post]
  split_ifs with h1 h2
  · exact iff_of_false (by simp) (fun hc => absurd hc.1 (not_lt.2 h1))
  · exact iff_of_true rfl ⟨not_le.1 h1, h2⟩
  · exact iff_of_false (by simp) (fun hc => h2 hc.2)

/-- The single-sample run of the C3 counterexample: a cone with
`tmin = -2` along `+y` against a triangle in the plane `y = -1`; the one
sample hits at parameter exactly `-1`, colliding with the sentinel. -/
theorem c3_state_eval :
    triangle_cone_state 1 ⟨⟨0, 0, 0⟩, ⟨0, 1, 0⟩, 1, -2, flt_max⟩
        ⟨-1, -1, -1⟩ ⟨3, -1, -1⟩ ⟨-1, -1, 3⟩ =
      ⟨1, -1, -1, [⟨1 / 4, 1 / 4⟩]⟩ := by
  norm_num [triangle_cone_state, cone_sample_loop, List.range_succ,
    List.range_zero, cone_sample_body, intersect_triangle, cross, dot, vmax,
    flt_max]

/-- C3 counterexample: in the single-sample run above the coverage fraction
is 1 > 0.3, yet the sampler returns false, because the recorded distance
equals the `-1` sentinel. -/
theorem c3_counterexample :
    0.3 < ((triangle_cone_state 1 ⟨⟨0, 0, 0⟩, ⟨0, 1, 0⟩, 1, -2, flt_max⟩
        ⟨-1, -1, -1⟩ ⟨3, -1, -1⟩ ⟨-1, -1, 3⟩).nPoints : ℝ) / ((1 : ℕ) : ℝ) ∧
    (intersect_triangle_cone 1 ⟨⟨0, 0, 0⟩, ⟨0, 1, 0⟩, 1, -2, flt_max⟩
        ⟨-1, -1, -1⟩ ⟨3, -1, -1⟩ ⟨-1, -1, 3⟩ [] 0).1 = false := by
  constructor
  · rw [c3_state_eval]
    norm_num
  · rw [intersect_triangle_cone, c3_state_eval]
    norm_num [cone_post]

/-! Passthrough lemmas: every ray solver leaves the `dist` out-parameter
unchanged when it reports a miss, exactly as the C++ early returns do. -/

theorem intersect_point_no_hit (ray : ray3f) (p : vec3f) (r : ℝ) (uv : vec2f)
    (dist : ℝ) : (intersect_point ray p r uv dist).1 = false →
    (intersect_point ray p r uv dist).2.2 = dist := by
  simp only [intersect_point]
  split_ifs <;> simp

theorem intersect_line_no_hit (ray : ray3f) (p0 p1 : vec3f) (r0 r1 : ℝ)
    (uv : vec2f) (dist : ℝ) : (intersect_line ray p0 p1 r0 r1 uv dist).1 = false →
    (intersect_line ray p0 p1 r0 r1 uv dist).2.2 = dist := by
  simp only [intersect_line]
  split_ifs <;> simp

theorem intersect_triangle_no_hit (ray : ray3f) (p0 p1 p2 : vec3f) (uv : vec2f)
    (dist : ℝ) : (intersect_triangle ray p0 p1 p2 uv dist).1 = false →
    (intersect_triangle ray p0 p1 p2 uv dist).2.2 = dist := by
  simp only [intersect_triangle]
  split_ifs <;> simp

theorem intersect_cylinder_no_hit (ray : ray3f) (p0 p1 : vec3f) (r0 r1 : ℝ)
    (uv : vec2f) (dist : ℝ) :
    (intersect_cylinder ray p0 p1 r0 r1 uv dist).1 = false →
    (intersect_cylinder ray p0 p1 r0 r1 uv dist).2.2 = dist := by
  simp only [intersect_cylinder]
  repeat' split
  all_goals simp

theorem intersect_quad_no_hit (ray : ray3f) (p0 p1 p2 p3 : vec3f) (uv : vec2f)
    (dist : ℝ) : (intersect_quad ray p0 p1 p2 p3 uv dist).1 = false →
    (intersect_quad ray p0 p1 p2 p3 uv dist).2.2 = dist := by
  simp only [intersect_quad]
  split
  · exact intersect_triangle_no_hit _ _ _ _ _ _
  · intro h
    rcases hE1 : intersect_triangle ray p0 p1 p3 uv dist with ⟨f1, uv1, d1⟩
    rw [hE1] at h
    dsimp only at h ⊢
    rcases hE2 : intersect_triangle
        (if f1 = true then { ray with tmax := d1 } else ray) p2 p3 p1 uv1 d1
      with ⟨f2, uv2, d2⟩
    rw [hE2] at h
    try dsimp only at h ⊢
    cases f2 with
    | true => simp at h
    | false =>
      simp only [Bool.false_eq_true, if_false] at h ⊢
      have h21 := intersect_triangle_no_hit
        (if f1 = true then { ray with tmax := d1 } else ray) p2 p3 p1 uv1 d1
        (by rw [hE2])
      rw [hE2] at h21
      have h11 := intersect_triangle_no_hit ray p0 p1 p3 uv dist
        (by rw [hE1]; simpa using h)
      rw [hE1] at h11
      simp only at h21 h11 ⊢
      exact h21.trans h11

/-- The ray parameter produced by the last sample test that succeeded during
the sampling loop (the initial value `d0` if none succeeded), threading the
shared out-parameter through the per-sample tests exactly as the loop
does. -/
def last_success_dist (NPts : ℕ) (test : ℕ → ℝ → ℝ → Bool × vec2f × ℝ)
    (d0 : ℝ) : ℝ :=
  (List.range NPts).foldl
    (fun acc k =>
      let res := test (k + 1) (sampleR NPts (k + 1)) acc
      if res.1 then res.2.2 else acc) d0

/-- If the per-sample test leaves the distance unchanged on a miss, the
loop's final `t_dist` is the parameter of the last successful sample. -/
theorem cone_loop_t_dist (coneCircleV : vec3f) (coneCircleR : ℝ)
    (planeXAxis planeYAxis origin : vec3f) (NPts : ℕ)
    (test : ℕ → ℝ → ℝ → Bool × vec2f × ℝ)
    (hpass : ∀ i r t2, (test i r t2).1 = false → (test i r t2).2.2 = t2)
    (l : List ℕ) (st : cone_sample_state) :
    (l.foldl
        (fun st k =>
          cone_sample_body coneCircleV coneCircleR planeXAxis planeYAxis
            origin NPts test st (k + 1)) st).t_dist =
      l.foldl
        (fun acc k =>
          let res := test (k + 1) (sampleR NPts (k + 1)) acc
          if res.1 then res.2.2 else acc) st.t_dist := by
  induction l generalizing st with
  | nil => rfl
  | cons a l ih =>
    simp only [List.foldl_cons]
    rw [ih]
    have hstep :
        (cone_sample_body coneCircleV coneCircleR planeXAxis planeYAxis origin
            NPts test st (a + 1)).t_dist =
          (let res := test (a + 1) (sampleR NPts (a + 1)) st.t_dist
           if res.1 then res.2.2 else st.t_dist) := by
      simp only [cone_sample_body]
      by_cases hb : (test (a + 1) (sampleR NPts (a + 1)) st.t_dist).1 = true
      · simp [hb]
      · simp only [Bool.not_eq_true] at hb
        simp [hb, hpass _ _ _ hb]
    rw [hstep]

/-- The loop's `nPoints`, `t_dist` and `uvs` components never depend on the
`minDistance` component of the state. -/
theorem cone_loop_minDistance_free (coneCircleV : vec3f) (coneCircleR : ℝ)
    (planeXAxis planeYAxis origin : vec3f) (NPts : ℕ)
    (test : ℕ → ℝ → ℝ → Bool × vec2f × ℝ) (l : List ℕ)
    (st st' : cone_sample_state) (hn : st.nPoints = st'.nPoints)
    (ht : st.t_dist = st'.t_dist) (hu : st.uvs = st'.uvs) :
    (l.foldl
        (fun st k =>
          cone_sample_body coneCircleV coneCircleR planeXAxis planeYAxis
            origin NPts test st (k + 1)) st).nPoints =
      (l.foldl
          (fun st k =>
            cone_sample_body coneCircleV coneCircleR planeXAxis planeYAxis
              origin NPts test st (k + 1)) st').nPoints ∧
    (l.foldl
        (fun st k =>
          cone_sample_body coneCircleV coneCircleR planeXAxis planeYAxis
            origin NPts test st (k + 1)) st).t_dist =
      (l.foldl
          (fun st k =>
            cone_sample_body coneCircleV coneCircleR planeXAxis planeYAxis
              origin NPts test st (k + 1)) st').t_dist ∧
    (l.foldl
        (fun st k =>
          cone_sample_body coneCircleV coneCircleR planeXAxis planeYAxis
            origin NPts test st (k + 1)) st).uvs =
      (l.foldl
          (fun st k =>
            cone_sample_body coneCircleV coneCircleR planeXAxis planeYAxis
              origin NPts test st (k + 1)) st').uvs := by
  induction l generalizing st st' with
  | nil => exact ⟨hn, ht, hu⟩
  | cons a l ih =>
    simp only [List.foldl_cons]
    apply ih
    all_goals
      simp only [cone_sample_body, ht, hn, hu]
      by_cases hb : (test (a + 1) (sampleR NPts (a + 1)) st'.t_dist).1 = true
      · simp [hb]
      · simp only [Bool.not_eq_true] at hb
        simp [hb]

/-- When the post-loop decision reports a hit, the written distance is the
final shared `t_dist` of the loop state. -/
theorem cone_post_dist (NPts : ℕ) (st : cone_sample_state) (uv : List vec2f)
    (dist : ℝ) : (cone_post NPts st uv dist).1 = true →
    (cone_post NPts st uv dist).2.2 = st.t_dist := by
  simp only [cone_post]
  intro h
  split_ifs at h ⊢
  simp_all

/-- C9: whenever a cone sampler overload (point, line, cylinder, triangle,
quad) returns true, the distance it writes is the ray parameter produced by
the last sample test that succeeded during the loop, and the minimum
tracked in `minDistance` never reaches the output (the loop's `nPoints`,
`t_dist` and `uvs` are independent of the `minDistance` component). -/
theorem c9_last_success_distance :
    (∀ (NPts : ℕ) (cone : cone_data) (p : vec3f) (radius : ℝ)
        (uv : List vec2f) (dist : ℝ),
      (intersect_point_cone NPts cone p radius uv dist).1 = true →
      (intersect_point_cone NPts cone p radius uv dist).2.2 =
        last_success_dist NPts
          (fun _i r t2 =>
            intersect_point
              { o := cone.origin, d := cone.dir, tmin := cone.tmin,
                tmax := cone.tmax } p r ⟨0, 0⟩ t2) (-1)) ∧
    (∀ (NPts : ℕ) (cone : cone_data) (p0 p1 : vec3f) (r0 r1 : ℝ)
        (uv : List vec2f) (dist : ℝ),
      (intersect_line_cone NPts cone p0 p1 r0 r1 uv dist).1 = true →
      (intersect_line_cone NPts cone p0 p1 r0 r1 uv dist).2.2 =
        last_success_dist NPts
          (fun _i _r t2 =>
            intersect_line
              { o := cone.origin, d := cone.dir, tmin := cone.tmin,
                tmax := cone.tmax } p0 p1 r0 r1 ⟨0, 0⟩ t2) (-1)) ∧
    (∀ (NPts : ℕ) (cone : cone_data) (p0 p1 : vec3f) (r0 r1 : ℝ)
        (uv : List vec2f) (dist : ℝ),
      (intersect_cylinder_cone NPts cone p0 p1 r0 r1 uv dist).1 = true →
      (intersect_cylinder_cone NPts cone p0 p1 r0 r1 uv dist).2.2 =
        last_success_dist NPts
          (fun _i _r t2 =>
            intersect_cylinder
              { o := cone.origin, d := cone.dir, tmin := cone.tmin,
                tmax := cone.tmax } p0 p1 r0 r1 ⟨0, 0⟩ t2) (-1)) ∧
    (∀ (NPts : ℕ) (cone : cone_data) (p0 p1 p2 : vec3f) (uv : List vec2f)
        (dist : ℝ),
      (intersect_triangle_cone NPts cone p0 p1 p2 uv dist).1 = true →
      (intersect_triangle_cone NPts cone p0 p1 p2 uv dist).2.2 =
        last_success_dist NPts
          (fun _i _r t2 =>
            intersect_triangle
              { o := cone.origin, d := cone.dir, tmin := cone.tmin,
                tmax := cone.tmax } p0 p1 p2 ⟨0, 0⟩ t2) (-1)) ∧
    (∀ (NPts : ℕ) (cone : cone_data) (p0 p1 p2 p3 : vec3f) (uv : List vec2f)
        (dist : ℝ),
      (intersect_quad_cone NPts cone p0 p1 p2 p3 uv dist).1 = true →
      (intersect_quad_cone NPts cone p0 p1 p2 p3 uv dist).2.2 =
        last_success_dist NPts
          (fun _i _r t2 =>
            intersect_quad
              { o := cone.origin, d := cone.dir, tmin := cone.tmin,
                tmax := cone.tmax } p0 p1 p2 p3 ⟨0, 0⟩ t2) (-1)) ∧
    (∀ (coneCircleV : vec3f) (coneCircleR : ℝ)
        (planeXAxis planeYAxis origin : vec3f) (NPts : ℕ)
        (test : ℕ → ℝ → ℝ → Bool × vec2f × ℝ) (n0 : ℕ) (m m' t0 : ℝ)
        (u0 : List vec2f),
      (cone_sample_loop coneCircleV coneCircleR planeXAxis planeYAxis origin
          NPts test ⟨n0, m, t0, u0⟩).nPoints =
        (cone_sample_loop coneCircleV coneCircleR planeXAxis planeYAxis origin
            NPts test ⟨n0, m', t0, u0⟩).nPoints ∧
      (cone_sample_loop coneCircleV coneCircleR planeXAxis planeYAxis origin
          NPts test ⟨n0, m, t0, u0⟩).t_dist =
        (cone_sample_loop coneCircleV coneCircleR planeXAxis planeYAxis origin
            NPts test ⟨n0, m', t0, u0⟩).t_dist ∧
      (cone_sample_loop coneCircleV coneCircleR planeXAxis planeYAxis origin
          NPts test ⟨n0, m, t0, u0⟩).uvs =
        (cone_sample_loop coneCircleV coneCircleR planeXAxis planeYAxis origin
            NPts test ⟨n0, m', t0, u0⟩).uvs) := by
  refine ⟨?_, ?_, ?_, ?_, ?_, ?_⟩
  · intro NPts cone p radius uv dist h
    unfold intersect_point_cone at h ⊢
    rw [cone_post_dist _ _ _ _ h]
    unfold point_cone_state
    exact cone_loop_t_dist _ _ _ _ _ _ _
      (fun i r t2 => intersect_point_no_hit _ _ _ _ _) _ _
  · intro NPts cone p0 p1 r0 r1 uv dist h
    unfold intersect_line_cone at h ⊢
    rw [cone_post_dist _ _ _ _ h]
    unfold line_cone_state
    exact cone_loop_t_dist _ _ _ _ _ _ _
      (fun i r t2 => intersect_line_no_hit _ _ _ _ _ _ _) _ _
  · intro NPts cone p0 p1 r0 r1 uv dist h
    unfold intersect_cylinder_cone at h ⊢
    rw [cone_post_dist _ _ _ _ h]
    unfold cylinder_cone_state
    exact cone_loop_t_dist _ _ _ _ _ _ _
      (fun i r t2 => intersect_cylinder_no_hit _ _ _ _ _ _ _) _ _
  · intro NPts cone p0 p1 p2 uv dist h
    unfold intersect_triangle_cone at h ⊢
    rw [cone_post_dist _ _ _ _ h]
    unfold triangle_cone_state
    exact cone_loop_t_dist _ _ _ _ _ _ _
      (fun i r t2 => intersect_triangle_no_hit _ _ _ _ _ _) _ _
  · intro NPts cone p0 p1 p2 p3 uv dist h
    unfold intersect_quad_cone at h ⊢
    rw [cone_post_dist _ _ _ _ h]
    unfold quad_cone_state
    exact cone_loop_t_dist _ _ _ _ _ _ _
      (fun i r t2 => intersect_quad_no_hit _ _ _ _ _ _ _) _ _
  · intro coneCircleV coneCircleR planeXAxis planeYAxis origin NPts test n0
      m m' t0 u0
    exact cone_loop_minDistance_free _ _ _ _ _ _ _ _ _ _ rfl rfl rfl

/-- The spiral radius of the single sample of a one-sample run is 1. -/
theorem sampleR_one_one : sampleR 1 1 = 1 := by
  have h05 : Real.sqrt ((1 : ℝ) - 0.5) ≠ 0 :=
    Real.sqrt_ne_zero'.mpr (by norm_num)
  simp [sampleR, div_self h05]

/-- Single-sample run of the cone-triangle sampler against a triangle in
the plane `y = 1`, hit by the axis ray at parameter 1. -/
theorem c9_triangle_state_eval :
    triangle_cone_state 1 ⟨⟨0, 0, 0⟩, ⟨0, 1, 0⟩, 1, ray_eps, flt_max⟩
        ⟨-1, 1, -1⟩ ⟨3, 1, -1⟩ ⟨-1, 1, 3⟩ =
      ⟨1, 1, 1, [⟨1 / 4, 1 / 4⟩]⟩ := by
  norm_num [triangle_cone_state, cone_sample_loop, List.range_succ,
    List.range_zero, cone_sample_body, intersect_triangle, cross, dot, vmax,
    ray_eps, flt_max]

/-- Single-sample run of the cone-point sampler against the point `(0,5,0)`
on the axis, hit by the axis ray at parameter 5. -/
theorem c9_point_state_eval :
    point_cone_state 1 ⟨⟨0, 0, 0⟩, ⟨0, 1, 0⟩, 1, ray_eps, flt_max⟩
        ⟨0, 5, 0⟩ 2 = ⟨1, 5, 5, [⟨0, 0⟩]⟩ := by
  norm_num [point_cone_state, cone_sample_loop, List.range_succ,
    List.range_zero, cone_sample_body, sampleR_one_one, intersect_point, dot,
    ray_eps, flt_max]

/-- C9 witness: concrete one-sample runs of the triangle and point
overloads return a hit, and the theorem identifies their written distance
with the last successful sample's parameter. -/
theorem c9_witness :
    (intersect_triangle_cone 1 ⟨⟨0, 0, 0⟩, ⟨0, 1, 0⟩, 1, ray_eps, flt_max⟩
        ⟨-1, 1, -1⟩ ⟨3, 1, -1⟩ ⟨-1, 1, 3⟩ [] 0).1 = true ∧
    (intersect_triangle_cone 1 ⟨⟨0, 0, 0⟩, ⟨0, 1, 0⟩, 1, ray_eps, flt_max⟩
        ⟨-1, 1, -1⟩ ⟨3, 1, -1⟩ ⟨-1, 1, 3⟩ [] 0).2.2 =
      last_success_dist 1
        (fun _i _r t2 =>
          intersect_triangle ⟨⟨0, 0, 0⟩, ⟨0, 1, 0⟩, ray_eps, flt_max⟩
            ⟨-1, 1, -1⟩ ⟨3, 1, -1⟩ ⟨-1, 1, 3⟩ ⟨0, 0⟩ t2) (-1) ∧
    (intersect_point_cone 1 ⟨⟨0, 0, 0⟩, ⟨0, 1, 0⟩, 1, ray_eps, flt_max⟩
        ⟨0, 5, 0⟩ 2 [] 0).1 = true ∧
    (intersect_point_cone 1 ⟨⟨0, 0, 0⟩, ⟨0, 1, 0⟩, 1, ray_eps, flt_max⟩
        ⟨0, 5, 0⟩ 2 [] 0).2.2 =
      last_success_dist 1
        (fun _i r t2 =>
          intersect_point ⟨⟨0, 0, 0⟩, ⟨0, 1, 0⟩, ray_eps, flt_max⟩
            ⟨0, 5, 0⟩ r ⟨0, 0⟩ t2) (-1) := by
  have htf : (intersect_triangle_cone 1
      ⟨⟨0, 0, 0⟩, ⟨0, 1, 0⟩, 1, ray_eps, flt_max⟩
      ⟨-1, 1, -1⟩ ⟨3, 1, -1⟩ ⟨-1, 1, 3⟩ [] 0).1 = true := by
    rw [intersect_triangle_cone, c9_triangle_state_eval]
    norm_num [cone_post]
  have hpf : (intersect_point_cone 1
      ⟨⟨0, 0, 0⟩, ⟨0, 1, 0⟩, 1, ray_eps, flt_max⟩ ⟨0, 5, 0⟩ 2 [] 0).1 =
      true := by
    rw [intersect_point_cone, c9_point_state_eval]
    norm_num [cone_post]
  exact ⟨htf,
    c9_last_success_distance.2.2.2.1 1
      ⟨⟨0, 0, 0⟩, ⟨0, 1, 0⟩, 1, ray_eps, flt_max⟩
      ⟨-1, 1, -1⟩ ⟨3, 1, -1⟩ ⟨-1, 1, 3⟩ [] 0 htf,
    hpf,
    c9_last_success_distance.1 1
      ⟨⟨0, 0, 0⟩, ⟨0, 1, 0⟩, 1, ray_eps, flt_max⟩ ⟨0, 5, 0⟩ 2 [] 0 hpf⟩

/-- C3 witness: the threshold characterization at the concrete
counterexample instance. -/
theorem c3_witness :
    (intersect_triangle_cone 1 ⟨⟨0, 0, 0⟩, ⟨0, 1, 0⟩, 1, -2, flt_max⟩
        ⟨-1, -1, -1⟩ ⟨3, -1, -1⟩ ⟨-1, -1, 3⟩ [] 0).1 = true ↔
      (0.3 < ((triangle_cone_state 1 ⟨⟨0, 0, 0⟩, ⟨0, 1, 0⟩, 1, -2, flt_max⟩
          ⟨-1, -1, -1⟩ ⟨3, -1, -1⟩ ⟨-1, -1, 3⟩).nPoints : ℝ) / ((1 : ℕ) : ℝ) ∧
        (triangle_cone_state 1 ⟨⟨0, 0, 0⟩, ⟨0, 1, 0⟩, 1, -2, flt_max⟩
            ⟨-1, -1, -1⟩ ⟨3, -1, -1⟩ ⟨-1, -1, 3⟩).t_dist ≠ -1) :=
  c3_triangle_cone_threshold 1 ⟨⟨0, 0, 0⟩, ⟨0, 1, 0⟩, 1, -2, flt_max⟩
    ⟨-1, -1, -1⟩ ⟨3, -1, -1⟩ ⟨-1, -1, 3⟩ [] 0

/-- One axis of the slab test: for a box slab with `mn <= mx`, the
sign-based entry/exit swap of the first `intersect_bbox` overload produces
exactly the componentwise `min`/`max` pair of the second overload. -/
theorem slab_pair (inv mn mx o : ℝ) (h : mn ≤ mx) :
    (if inv < 0 then (((mx - o) * inv, (mn - o) * inv) : ℝ × ℝ)
     else ((mn - o) * inv, (mx - o) * inv)) =
      (min ((mn - o) * inv) ((mx - o) * inv),
        max ((mn - o) * inv) ((mx - o) * inv)) := by
  rcases lt_or_le inv 0 with hc | hc
  · rw [if_pos hc]
    have hle : (mx - o) * inv ≤ (mn - o) * inv := by nlinarith
    rw [min_eq_right hle, max_eq_left hle]
  · rw [if_neg (not_lt.2 hc)]
    have hle : (mn - o) * inv ≤ (mx - o) * inv := by nlinarith
    rw [min_eq_left hle, max_eq_right hle]

theorem max_chain_comm (a b c t : ℝ) :
    max c (max b (max a t)) = max (max (max a b) c) t := by
  simp [max_assoc, max_comm, max_left_comm]

theorem min_chain_comm (a b c t : ℝ) :
    min c (min b (min a t)) = min (min (min a b) c) t := by
  simp [min_assoc, min_comm, min_left_comm]

/-- C7 (amended): the two slab-test overloads agree on every ray (any
direction, including zero or negative components, division by zero taken as
Lean's total division) and every box whose `min` is componentwise at most
its `max`; precomputing `ray_dinv = 1/ray.d` componentwise is equivalent to
recomputing it. -/
theorem c7_bbox_overloads_agree (ray : ray3f) (ray_dinv : vec3f)
    (bbox : bbox3f) (hx : ray_dinv.x = 1 / ray.d.x)
    (hy : ray_dinv.y = 1 / ray.d.y) (hz : ray_dinv.z = 1 / ray.d.z)
    (hbx : bbox.min.x ≤ bbox.max.x) (hby : bbox.min.y ≤ bbox.max.y)
    (hbz : bbox.min.z ≤ bbox.max.z) :
    intersect_bbox ray bbox = intersect_bbox_dinv ray ray_dinv bbox := by
  simp only [intersect_bbox, intersect_bbox_dinv, vmin, vmax, maxComp,
    minComp, vec3f_sub_def, vec3f_mul_def, vec3f_div_left_def, vec3f_mk_x,
    vec3f_mk_y, vec3f_mk_z, hx, hy, hz]
  rw [slab_pair _ _ _ _ hbx, slab_pair _ _ _ _ hby, slab_pair _ _ _ _ hbz]
  simp only [decide_eq_decide]
  rw [max_chain_comm, min_chain_comm]

/-- C7 counterexample: for the inverted (empty) box with `min = (1,1,1)`,
`max = (0,0,0)` and the ray from `(-5,-5,-5)` along `(1,1,1)` (inverse
direction `(1/1, 1/1, 1/1)`), the recomputing overload reports a miss but
the precomputed-inverse overload reports a hit: its componentwise
`min`/`max` re-sorts the slab interval that the sign-based swap leaves
inverted. -/
theorem c7_counterexample :
    intersect_bbox ⟨⟨-5, -5, -5⟩, ⟨1, 1, 1⟩, ray_eps, flt_max⟩
        ⟨⟨1, 1, 1⟩, ⟨0, 0, 0⟩⟩ = false ∧
    intersect_bbox_dinv ⟨⟨-5, -5, -5⟩, ⟨1, 1, 1⟩, ray_eps, flt_max⟩
        ⟨1 / 1, 1 / 1, 1 / 1⟩ ⟨⟨1, 1, 1⟩, ⟨0, 0, 0⟩⟩ = true := by
  constructor
  · norm_num [intersect_bbox, ray_eps, flt_max, min_def, max_def]
  · norm_num [intersect_bbox_dinv, vmin, vmax, maxComp, minComp, ray_eps,
      flt_max, min_def, max_def]

/-- C7 witness: the agreement theorem applied to a valid box and the exact
componentwise reciprocal of the direction `(1,2,4)`. -/
theorem c7_witness :
    intersect_bbox ⟨⟨-5, -5, -5⟩, ⟨1, 2, 4⟩, ray_eps, flt_max⟩
        ⟨⟨0, 0, 0⟩, ⟨1, 1, 1⟩⟩ =
      intersect_bbox_dinv ⟨⟨-5, -5, -5⟩, ⟨1, 2, 4⟩, ray_eps, flt_max⟩
        ⟨1, 1 / 2, 1 / 4⟩ ⟨⟨0, 0, 0⟩, ⟨1, 1, 1⟩⟩ :=
  c7_bbox_overloads_agree _ _ _ (by norm_num) (by norm_num) (by norm_num)
    (by norm_num) (by norm_num) (by norm_num)

theorem ite_pair_fst (c : Prop) [Decidable c] (a b x y : ℝ) :
    (if c then ((a, x) : ℝ × ℝ) else (b, y)).1 = if c then a else b := by
  split_ifs <;> rfl

theorem ite_pair_snd (c : Prop) [Decidable c] (a b x y : ℝ) :
    (if c then ((a, x) : ℝ × ℝ) else (b, y)).2 = if c then x else y := by
  split_ifs <;> rfl

/-- One axis of the half-space/slab comparison: if the slab exit parameter
of an axis (after the sign-based swap) is positive, then that axis's
contribution to the box support along the direction,
`d*(centre - o) + e*|d|`, equals `d^2` times the exit parameter, and is
positive. -/
theorem slab_axis_key (d o mn mx : ℝ)
    (hpos : 0 < (if 1 / d < 0 then (mn - o) * (1 / d) else (mx - o) * (1 / d))) :
    d * ((mx + mn) * 0.5 - o) + (mx - mn) * 0.5 * |d| =
      d * d * (if 1 / d < 0 then (mn - o) * (1 / d) else (mx - o) * (1 / d)) ∧
    0 < d * d * (if 1 / d < 0 then (mn - o) * (1 / d) else (mx - o) * (1 / d)) := by
  rcases lt_trichotomy d 0 with hd | hd | hd
  · have hinv : 1 / d < 0 := one_div_neg.mpr hd
    rw [if_pos hinv] at hpos ⊢
    have hne : d ≠ 0 := ne_of_lt hd
    refine ⟨?_, mul_pos (mul_pos_of_neg_of_neg hd hd) hpos⟩
    rw [abs_of_neg hd]
    field_simp
    ring
  · subst hd
    norm_num at hpos
  · have hinv : 0 < 1 / d := by positivity
    rw [if_neg (not_lt.2 hinv.le)] at hpos ⊢
    have hne : d ≠ 0 := ne_of_gt hd
    refine ⟨?_, mul_pos (mul_pos hd hd) hpos⟩
    rw [abs_of_pos hd]
    field_simp
    ring

/-- If the plain axis ray (bounds `[ray_eps, flt_max]`) passes the slab
test against a box, the box's support along the ray direction,
`dot(d, centre - o) + dot(e, |d|)`, is strictly positive - so the
half-space rejection step of `cone_intersect_bbox` cannot fire. -/
theorem slab_hit_support_pos (o d : vec3f) (bbox : bbox3f)
    (h : intersect_bbox ⟨o, d, ray_eps, flt_max⟩ bbox = true) :
    0 < dot d ((bbox.max + bbox.min) * (0.5 : ℝ) - o) +
      dot ((bbox.max - bbox.min) * (0.5 : ℝ)) (vabs d) := by
  simp only [intersect_bbox, vec3f_sub_def, vec3f_mul_def, vec3f_div_left_def,
    vec3f_mk_x, vec3f_mk_y, vec3f_mk_z, ite_pair_fst, ite_pair_snd,
    decide_eq_true_eq] at h
  have heps : (0 : ℝ) < ray_eps := by norm_num [ray_eps]
  -- name the three exit parameters
  set Sx := (if 1 / d.x < 0 then (bbox.min.x - o.x) * (1 / d.x)
    else (bbox.max.x - o.x) * (1 / d.x)) with hSx
  set Sy := (if 1 / d.y < 0 then (bbox.min.y - o.y) * (1 / d.y)
    else (bbox.max.y - o.y) * (1 / d.y)) with hSy
  set Sz := (if 1 / d.z < 0 then (bbox.min.z - o.z) * (1 / d.z)
    else (bbox.max.z - o.z) * (1 / d.z)) with hSz
  have hM : 0 < min Sz (min Sy (min Sx flt_max)) := by
    by_contra h0
    push_neg at h0
    have hmul : min Sz (min Sy (min Sx flt_max)) * 1.00000024 ≤ 0 := by nlinarith
    have hge : ray_eps ≤ min Sz (min Sy (min Sx flt_max)) * 1.00000024 := by
      calc ray_eps ≤ max (if 1 / d.z < 0 then (bbox.max.z - o.z) * (1 / d.z)
              else (bbox.min.z - o.z) * (1 / d.z))
            (max (if 1 / d.y < 0 then (bbox.max.y - o.y) * (1 / d.y)
              else (bbox.min.y - o.y) * (1 / d.y))
            (max (if 1 / d.x < 0 then (bbox.max.x - o.x) * (1 / d.x)
              else (bbox.min.x - o.x) * (1 / d.x)) ray_eps)) :=
          le_max_of_le_right (le_max_of_le_right (le_max_right _ _))
        _ ≤ _ := h
    linarith
  have hSxp : 0 < Sx :=
    lt_of_lt_of_le hM (le_trans (min_le_right _ _)
      (le_trans (min_le_right _ _) (min_le_left _ _)))
  have hSyp : 0 < Sy :=
    lt_of_lt_of_le hM (le_trans (min_le_right _ _) (min_le_left _ _))
  have hSzp : 0 < Sz := lt_of_lt_of_le hM (min_le_left _ _)
  have hx := slab_axis_key d.x o.x bbox.min.x bbox.max.x (hSx ▸ hSxp)
  have hy := slab_axis_key d.y o.y bbox.min.y bbox.max.y (hSy ▸ hSyp)
  have hz := slab_axis_key d.z o.z bbox.min.z bbox.max.z (hSz ▸ hSzp)
  simp only [dot, vabs, vec3f_add_def, vec3f_sub_def, vec3f_mul_def,
    vec3f_smul_def, vec3f_mk_x, vec3f_mk_y, vec3f_mk_z]
  linarith [hx.1, hx.2, hy.1, hy.2, hz.1, hz.2]

/-- C1: for every cone and every axis-aligned box, if the plain ray with
the cone's origin and axis direction (default bounds) passes the slab test
`intersect_bbox`, then `cone_intersect_bbox` returns true: the half-space
rejection step never fires in that situation, and the axis-ray shortcut
accepts immediately. -/
theorem c1_cone_bbox_conservative (cone : cone_data) (bbox : bbox3f)
    (printing : Bool)
    (h : intersect_bbox { o := cone.origin, d := cone.dir } bbox = true) :
    cone_intersect_bbox cone bbox printing = true := by
  have hpos := slab_hit_support_pos cone.origin cone.dir bbox h
  simp only [cone_intersect_bbox]
  rw [if_neg (not_le.2 hpos), if_pos h]

/-- C1 witness: the axis ray from the origin along `(1,1,1)` passes the slab
test against the box `[1,2]^3`, and `cone_intersect_bbox` accepts. -/
theorem c1_witness :
    intersect_bbox
        { o := (⟨0, 0, 0⟩ : vec3f), d := (⟨1, 1, 1⟩ : vec3f) }
        ⟨⟨1, 1, 1⟩, ⟨2, 2, 2⟩⟩ = true ∧
    cone_intersect_bbox ⟨⟨0, 0, 0⟩, ⟨1, 1, 1⟩, 1, ray_eps, flt_max⟩
        ⟨⟨1, 1, 1⟩, ⟨2, 2, 2⟩⟩ false = true := by
  have hslab : intersect_bbox
      { o := (⟨0, 0, 0⟩ : vec3f), d := (⟨1, 1, 1⟩ : vec3f) }
      ⟨⟨1, 1, 1⟩, ⟨2, 2, 2⟩⟩ = true := by
    norm_num [intersect_bbox, ray_eps, flt_max, min_def, max_def]
  exact ⟨hslab,
    c1_cone_bbox_conservative ⟨⟨0, 0, 0⟩, ⟨1, 1, 1⟩, 1, ray_eps, flt_max⟩
      ⟨⟨1, 1, 1⟩, ⟨2, 2, 2⟩⟩ false hslab⟩

end yocto
